import Mathlib

/-!
Verification development for the openeizo HID driver (`src/eizo.c`).

The driver's protocol core is embedded shallowly:

* a feature-report frame is a `List Nat` of 39 bytes (each stored byte is
  reduced mod 256, modelling `u8` storage);
* C `int` values (`usage`, `value`) are Lean `Int`s; two's-complement byte
  extraction `(v >> 8k) & 0xff` is modelled as `((v mod 2^32) >> 8k) % 256`,
  which agrees with arithmetic shift on two's-complement machines for all
  `v` in the 32-bit signed range;
* the HID transport (`hid_hw_raw_request`) is a record of two functions,
  one for `HID_REQ_SET_REPORT` and one for `HID_REQ_GET_REPORT`;
* `kzalloc` success is a boolean parameter (`allocOk`);
* lock usage and transport calls are recorded in an event trace, from which
  the locking and call-ordering claims are stated;
* mutual exclusion is stated over an interleaving semantics of two threads
  with a mutex validity predicate.
-/

namespace OpenEizo

/-- Linux errno constant `EPERM` (operation not permitted). -/
def EPERM : Int := 1

/-- Linux errno constant `ENOMEM` (out of memory). -/
def ENOMEM : Int := 12

/-- Linux errno constant `EINVAL` (invalid argument). -/
def EINVAL : Int := 22

/-- Linux errno constant `ENODATA` (no data available). -/
def ENODATA : Int := 61

/-- Linux errno constant `ECOMM` (communication error on send). -/
def ECOMM : Int := 70

/-- Modelled from the spec: the header `eizo.h` defining the
`EIZO_USAGE_*` constants is not part of `src/`; the spec only fixes that
`BRIGHTNESS`, `POWER`, `GAMMA`, `PROFILE` are four distinct 32-bit
constants (nonnegative, since `to_usage` signals failure with `-1`).
The concrete value here is a representative. -/
def EIZO_USAGE_BRIGHTNESS : Int := 1

/-- Modelled from the spec: see `EIZO_USAGE_BRIGHTNESS`. -/
def EIZO_USAGE_POWER : Int := 2

/-- Modelled from the spec: see `EIZO_USAGE_BRIGHTNESS`. -/
def EIZO_USAGE_GAMMA : Int := 3

/-- Modelled from the spec: see `EIZO_USAGE_BRIGHTNESS`. -/
def EIZO_USAGE_PROFILE : Int := 4

/-- The four known usage codes. -/
def eizoUsages : List Int :=
  [EIZO_USAGE_BRIGHTNESS, EIZO_USAGE_POWER, EIZO_USAGE_GAMMA, EIZO_USAGE_PROFILE]

/-- Byte `k` of the 32-bit two's-complement representation of the C `int`
`v`: models `(v >> (8*k)) & 0xff` as stored into a `u8`. -/
def encByte (v : Int) (k : Nat) : Nat :=
  ((v % (2 ^ 32 : Int)).toNat >>> (8 * k)) % 256

/-- Byte `k` of the `ushort` counter: models `(counter >> (8*k)) & 0xff`. -/
def cntByte (c : Nat) (k : Nat) : Nat :=
  (c >>> (8 * k)) % 256

/-- Read byte `i` of a report buffer; `u8` storage, so reduced mod 256.
Out-of-range indices read 0. -/
def byteAt (report : List Nat) (i : Nat) : Nat :=
  (report.getD i 0) % 256

/-- Reinterpret a bit pattern as a 32-bit signed C `int` (two's complement). -/
def i32ofNat (n : Nat) : Int :=
  if n % 2 ^ 32 < 2 ^ 31 then ((n % 2 ^ 32 : Nat) : Int)
  else ((n % 2 ^ 32 : Nat) : Int) - 2 ^ 32

/-- The frame built by `eizo_set_value` (eizo.c lines 40-60): a
zero-initialized 39-byte buffer with `usage` in bytes 1-4, the counter in
bytes 5-6 and `value` in bytes 7-10, all little-endian. -/
def setReportFrame (usage value : Int) (counter : Nat) : List Nat :=
  ((((((((((List.replicate 39 0).set 1 (encByte usage 0)).set 2
    (encByte usage 1)).set 3 (encByte usage 2)).set 4 (encByte usage 3)).set 5
    (cntByte counter 0)).set 6 (cntByte counter 1)).set 7 (encByte value 0)).set 8
    (encByte value 1)).set 9 (encByte value 2)).set 10 (encByte value 3)

/-- The request frame built by `eizo_get_value` (eizo.c lines 87-101): as
`setReportFrame` but the value bytes 7-10 are left zero. -/
def getReportFrame (usage : Int) (counter : Nat) : List Nat :=
  ((((((List.replicate 39 0).set 1 (encByte usage 0)).set 2
    (encByte usage 1)).set 3 (encByte usage 2)).set 4 (encByte usage 3)).set 5
    (cntByte counter 0)).set 6 (cntByte counter 1)

/-- The decode of `eizo_get_value` line 121:
`*value = report[7] | (report[8] << 8) | (report[9] << 16) | (report[10] << 24)`,
with the resulting 32-bit pattern read as a signed C `int`. -/
def decodeValue (report : List Nat) : Int :=
  i32ofNat (byteAt report 7 ||| (byteAt report 8 <<< 8) |||
    (byteAt report 9 <<< 16) ||| (byteAt report 10 <<< 24))

/-- Little-endian decode of the usage field, bytes 1-4, reading the claim's
inverse of the encoding performed by `eizo_set_value` lines 49-52. -/
def decodeUsage (report : List Nat) : Int :=
  i32ofNat (byteAt report 1 ||| (byteAt report 2 <<< 8) |||
    (byteAt report 3 <<< 16) ||| (byteAt report 4 <<< 24))

/-- The request types of `hid_hw_raw_request`. -/
inductive ReqType
  | setReport
  | getReport
deriving DecidableEq, Repr

/-- One observed transport exchange: report id, request type, and the
39-byte driver-side buffer at the moment of the call. -/
structure TransportCall where
  reportId : Nat
  reqType : ReqType
  buffer : List Nat
deriving DecidableEq, Repr

/-- An event in an operation's trace: mutex acquire/release or a transport
exchange. -/
inductive Event
  | lock
  | unlock
  | xfer (call : TransportCall)
deriving DecidableEq, Repr

/-- The HID transport (`hid_hw_raw_request`): `send` is a
`HID_REQ_SET_REPORT` exchange returning a status; `recv` is a
`HID_REQ_GET_REPORT` exchange returning a status and the buffer filled by
the device. -/
structure Transport where
  send : Nat → List Nat → Int
  recv : Nat → List Nat → Int × List Nat

/-- The per-device driver data `struct eizo_data`: the `ushort` sequence
counter. The mutex has no data content; its usage is recorded in traces. -/
structure EizoData where
  counter : Nat
deriving DecidableEq, Repr

/-- `eizo_data_init` (eizo.c lines 202-205): seeds the counter to 0x0001. -/
def eizo_data_init : EizoData := { counter := 0x0001 }

/-- Result of `eizo_set_value`: return code, the driver data after the call,
and the event trace. -/
structure SetResult where
  ret : Int
  drvdata : Option EizoData
  events : List Event
deriving DecidableEq, Repr

/-- `eizo_set_value` (eizo.c lines 26-74). `drvdata` is the
`hid_get_drvdata` lookup result, `allocOk` models `kzalloc` success. -/
def eizo_set_value (drvdata : Option EizoData) (allocOk : Bool)
    (tp : Transport) (usage value : Int) : SetResult :=
  match drvdata with
  | none => ⟨-ENODATA, none, []⟩
  | some data =>
    if allocOk = false then ⟨-ENOMEM, some data, []⟩
    else
      let report := setReportFrame usage value data.counter
      let ret := tp.send 2 report
      if ret < 0 then
        ⟨-ECOMM, some data, [.lock, .xfer ⟨2, .setReport, report⟩, .unlock]⟩
      else
        ⟨0, some data, [.lock, .xfer ⟨2, .setReport, report⟩, .unlock]⟩

/-- Result of `eizo_get_value`: return code, the out-parameter `*value`
(written only when the code writes it), driver data after the call, and the
event trace. -/
structure GetResult where
  ret : Int
  value : Option Int
  drvdata : Option EizoData
  events : List Event
deriving DecidableEq, Repr

/-- `eizo_get_value` (eizo.c lines 76-126). -/
def eizo_get_value (drvdata : Option EizoData) (allocOk : Bool)
    (tp : Transport) (usage : Int) : GetResult :=
  match drvdata with
  | none => ⟨-ENODATA, none, none, []⟩
  | some data =>
    if allocOk = false then ⟨-ENOMEM, none, some data, []⟩
    else
      let report := getReportFrame usage data.counter
      let r1 := tp.send 3 report
      if r1 < 0 then
        ⟨-ECOMM, none, some data,
          [.lock, .xfer ⟨3, .setReport, report⟩, .unlock]⟩
      else
        let r2 := tp.recv 3 report
        if r2.1 < 0 then
          ⟨-ECOMM, none, some data,
            [.lock, .xfer ⟨3, .setReport, report⟩,
             .xfer ⟨3, .getReport, report⟩, .unlock]⟩
        else
          ⟨0, some (decodeValue r2.2), some data,
            [.lock, .xfer ⟨3, .setReport, report⟩,
             .xfer ⟨3, .getReport, report⟩, .unlock]⟩

/-- `to_usage` (eizo.c lines 128-140): map an attribute name to its usage
code, `-1` for unknown names. -/
def to_usage (attr_name : String) : Int :=
  if attr_name = "brightness" then EIZO_USAGE_BRIGHTNESS
  else if attr_name = "power" then EIZO_USAGE_POWER
  else if attr_name = "gamma" then EIZO_USAGE_GAMMA
  else if attr_name = "profile" then EIZO_USAGE_PROFILE
  else -1

/-- Result of the sysfs store path: return code and event trace. -/
structure StoreResult where
  ret : Int
  events : List Event
deriving DecidableEq, Repr

/-- `eizo_attr_store` (eizo.c lines 142-164). `parsed` is the outcome of
the external `kstrtoint` base-10 parse of the payload, `count` the number
of input bytes. -/
def eizo_attr_store (drvdata : Option EizoData) (allocOk : Bool)
    (tp : Transport) (attr_name : String) (parsed : Option Int)
    (count : Nat) : StoreResult :=
  match parsed with
  | none => ⟨-EINVAL, []⟩
  | some value =>
    let usage := to_usage attr_name
    if usage < 0 then ⟨-EINVAL, []⟩
    else
      let res := eizo_set_value drvdata allocOk tp usage value
      if res.ret < 0 then ⟨-EPERM, res.events⟩
      else ⟨(count : Int), res.events⟩

/-- Result of the sysfs show path: return code, the rendered output buffer
(written only on success), and event trace. -/
structure ShowResult where
  ret : Int
  buf : Option String
  events : List Event
deriving DecidableEq, Repr

/-- `eizo_attr_show` (eizo.c lines 166-182). `sprintf(buf, "%d\n", value)`
is modelled as rendering the decimal value followed by a newline, returning
its length. -/
def eizo_attr_show (drvdata : Option EizoData) (allocOk : Bool)
    (tp : Transport) (attr_name : String) : ShowResult :=
  let usage := to_usage attr_name
  if usage < 0 then ⟨-EINVAL, none, []⟩
  else
    let res := eizo_get_value drvdata allocOk tp usage
    if res.ret < 0 then ⟨-ENODATA, none, res.events⟩
    else
      match res.value with
      | some v =>
        let out := toString v ++ "\n"
        ⟨(out.length : Int), some out, res.events⟩
      | none => ⟨-ENODATA, none, res.events⟩

/-- A protocol operation, for threading driver data through a sequence of
calls. -/
inductive OpCall
  | set (usage value : Int) (allocOk : Bool)
  | get (usage : Int) (allocOk : Bool)

/-- Run one operation, returning the driver data afterwards and the trace. -/
def runOp (tp : Transport) (drvdata : Option EizoData) :
    OpCall → Option EizoData × List Event
  | .set u v a =>
    let r := eizo_set_value drvdata a tp u v
    (r.drvdata, r.events)
  | .get u a =>
    let r := eizo_get_value drvdata a tp u
    (r.drvdata, r.events)

/-- Run a sequence of operations, threading driver data and concatenating
traces. -/
def runOps (tp : Transport) (drvdata : Option EizoData) :
    List OpCall → Option EizoData × List Event
  | [] => (drvdata, [])
  | op :: ops =>
    let r := runOp tp drvdata op
    let rest := runOps tp r.1 ops
    (rest.1, r.2 ++ rest.2)

/-- Program-order trace of one thread, extracted from a schedule of
tagged events (`true`/`false` is the thread performing the event). -/
def project (t : Bool) : List (Bool × Event) → List Event
  | [] => []
  | (u, e) :: s => if u = t then e :: project t s else project t s

/-- Mutex validity of a schedule, starting from a lock state (`none` free,
`some t` held by thread `t`): a thread may acquire only a free lock and
release only a lock it holds; transport calls are unrestricted. -/
def validFrom : Option Bool → List (Bool × Event) → Bool
  | _, [] => true
  | st, (t, e) :: s =>
    match e, st with
    | .lock, none => validFrom (some t) s
    | .lock, some _ => false
    | .unlock, some h => h == t && validFrom none s
    | .unlock, none => false
    | .xfer _, _ => validFrom st s

/-- The thread tags of the transport-call events of a schedule, in order. -/
def owners : List (Bool × Event) → List Bool
  | [] => []
  | (t, e) :: s =>
    match e with
    | .xfer _ => t :: owners s
    | _ => owners s

/-- The progress of one thread through a protocol operation: not yet in the
critical section, inside it with `calls` exchanges still to perform, or
finished. -/
inductive Stage
  | idle (calls : List TransportCall)
  | inside (calls : List TransportCall)
  | finished

/-- The remaining program-order trace of a stage. -/
def Stage.trace : Stage → List Event
  | .idle c => .lock :: (c.map .xfer ++ [.unlock])
  | .inside c => c.map .xfer ++ [.unlock]
  | .finished => []

/-- The number of remaining transport calls of a stage. -/
def Stage.remaining : Stage → Nat
  | .idle c => c.length
  | .inside c => c.length
  | .finished => 0

/-- Whether the stage is inside the critical section. -/
def Stage.holds : Stage → Bool
  | .inside _ => true
  | _ => false

/-- Consistency of a lock state with the two threads' stages: the holder
(if any) is the unique thread inside its critical section. -/
def StagesOk : Option Bool → Stage → Stage → Prop
  | none, sA, sB => sA.holds = false ∧ sB.holds = false
  | some true, sA, sB => sA.holds = true ∧ sB.holds = false
  | some false, sA, sB => sA.holds = false ∧ sB.holds = true

/-- The shape forced on the owner list of the remaining schedule: if a
thread holds the lock, its remaining calls come first; if the lock is free,
one thread's calls wholly precede the other's. -/
def OwnerShape : Option Bool → Nat → Nat → List Bool → Prop
  | some true, xA, xB, l => l = List.replicate xA true ++ List.replicate xB false
  | some false, xA, xB, l => l = List.replicate xB false ++ List.replicate xA true
  | none, xA, xB, l =>
    l = List.replicate xA true ++ List.replicate xB false ∨
    l = List.replicate xB false ++ List.replicate xA true

/-- An event trace is one produced by `eizo_set_value` or `eizo_get_value`
at some arguments. -/
def IsEizoTrace (evs : List Event) : Prop :=
  (∃ d a tp u v, evs = (eizo_set_value d a tp u v).events) ∨
  (∃ d a tp u, evs = (eizo_get_value d a tp u).events)

/-- A transport whose exchanges always succeed and echo the request buffer. -/
def echoTransport : Transport where
  send := fun _ _ => 0
  recv := fun _ buf => (0, buf)

/-- A transport whose `HID_REQ_SET_REPORT` exchanges always fail. -/
def failSendTransport : Transport where
  send := fun _ _ => -1
  recv := fun _ buf => (0, buf)

/-- A transport whose `HID_REQ_GET_REPORT` exchanges always fail. -/
def failRecvTransport : Transport where
  send := fun _ _ => 0
  recv := fun _ buf => (-1, buf)

/-- A concrete sequential two-thread schedule: a full set operation by one
thread, then a full get operation by the other. -/
def schedW : List (Bool × Event) :=
  ((eizo_set_value (some eizo_data_init) true echoTransport
      EIZO_USAGE_BRIGHTNESS 150).events.map (fun e => (true, e))) ++
  ((eizo_get_value (some eizo_data_init) true echoTransport
      EIZO_USAGE_POWER).events.map (fun e => (false, e)))

/-- `setReportFrame` written out as an explicit list. -/
theorem setReportFrame_eq (usage value : Int) (counter : Nat) :
    setReportFrame usage value counter =
      0 :: encByte usage 0 :: encByte usage 1 :: encByte usage 2 ::
      encByte usage 3 :: cntByte counter 0 :: cntByte counter 1 ::
      encByte value 0 :: encByte value 1 :: encByte value 2 ::
      encByte value 3 :: List.replicate 28 0 := rfl

/-- `getReportFrame` written out as an explicit list. -/
theorem getReportFrame_eq (usage : Int) (counter : Nat) :
    getReportFrame usage counter =
      0 :: encByte usage 0 :: encByte usage 1 :: encByte usage 2 ::
      encByte usage 3 :: cntByte counter 0 :: cntByte counter 1 ::
      0 :: 0 :: 0 :: 0 :: List.replicate 28 0 := rfl

/-- An encoded byte is below 256. -/
theorem encByte_lt (v : Int) (k : Nat) : encByte v k < 256 :=
  Nat.mod_lt _ (by norm_num)

/-- Disjoint bitwise-or is addition: `b ||| (a <<< i) = 2^i * a + b`
when `b < 2^i`. -/
theorem lor_split (i a b : Nat) (h : b < 2 ^ i) :
    b ||| (a <<< i) = 2 ^ i * a + b := by
  rw [Nat.shiftLeft_eq, Nat.lor_comm, Nat.mul_comm]
  exact (Nat.mul_add_lt_is_or h a).symm

/-- Recomposing the four little-endian base-256 digits of `n < 2^32` by
shifted bitwise-or, exactly as `eizo_get_value` line 121 does, yields `n`. -/
theorem decode_bytes_eq (n : Nat) (h : n < 2 ^ 32) :
    (n % 256) ||| ((n / 2 ^ 8 % 256) <<< 8) ||| ((n / 2 ^ 16 % 256) <<< 16) |||
      ((n / 2 ^ 24 % 256) <<< 24) = n := by
  rw [lor_split 8 _ _ (by omega)]
  rw [lor_split 16 _ _ (by omega)]
  rw [lor_split 24 _ _ (by omega)]
  omega

/-- `encByte` in division form. -/
theorem encByte_div (v : Int) (k : Nat) :
    encByte v k = (v % (2 ^ 32 : Int)).toNat / 2 ^ (8 * k) % 256 := by
  unfold encByte
  rw [Nat.shiftRight_eq_div_pow]

/-- Round trip on the 32-bit pattern: decoding the four encoded bytes of a
signed 32-bit `v` recovers `v`. -/
theorem decode_encByte (v : Int) (h0 : -(2 ^ 31) ≤ v) (h1 : v < 2 ^ 31) :
    i32ofNat (encByte v 0 % 256 ||| ((encByte v 1 % 256) <<< 8) |||
      ((encByte v 2 % 256) <<< 16) ||| ((encByte v 3 % 256) <<< 24)) = v := by
  have hmod : ∀ k, encByte v k % 256 = encByte v k := fun k =>
    Nat.mod_eq_of_lt (encByte_lt v k)
  rw [hmod 0, hmod 1, hmod 2, hmod 3]
  simp only [encByte_div]
  set n : Nat := (v % (2 ^ 32 : Int)).toNat with hn
  have hcast : (n : Int) = v % 2 ^ 32 := by
    rw [hn]
    exact Int.toNat_of_nonneg (Int.emod_nonneg v (by norm_num))
  have hlt : n < 2 ^ 32 := by
    have := Int.emod_lt_of_pos v (show (0 : Int) < 2 ^ 32 by norm_num)
    omega
  have hd := decode_bytes_eq n hlt
  simp only [show (8 * 0 : Nat) = 0 from rfl, show (8 * 1 : Nat) = 8 from rfl,
    show (8 * 2 : Nat) = 16 from rfl, show (8 * 3 : Nat) = 24 from rfl,
    Nat.pow_zero, Nat.div_one]
  rw [hd]
  unfold i32ofNat
  split <;> omega

/-- Projection of a cons scheduled by the same thread. -/
theorem project_cons_same (t : Bool) (e : Event) (s : List (Bool × Event)) :
    project t ((t, e) :: s) = e :: project t s := by
  simp [project]

/-- Projection of a cons scheduled by the other thread. -/
theorem project_cons_other {u t : Bool} (h : u ≠ t) (e : Event)
    (s : List (Bool × Event)) :
    project t ((u, e) :: s) = project t s := by
  simp [project, h]

/-- `owners` skips a lock event. -/
theorem owners_cons_lock (t : Bool) (s : List (Bool × Event)) :
    owners ((t, .lock) :: s) = owners s := rfl

/-- `owners` skips an unlock event. -/
theorem owners_cons_unlock (t : Bool) (s : List (Bool × Event)) :
    owners ((t, .unlock) :: s) = owners s := rfl

/-- `owners` records the thread of a transport call. -/
theorem owners_cons_xfer (t : Bool) (c : TransportCall)
    (s : List (Bool × Event)) :
    owners ((t, .xfer c) :: s) = t :: owners s := rfl

/-- A transport event does not change what `validFrom` checks. -/
theorem validFrom_cons_xfer (st : Option Bool) (t : Bool) (c : TransportCall)
    (s : List (Bool × Event)) :
    validFrom st ((t, .xfer c) :: s) = validFrom st s := by
  cases st <;> rfl

/-- Serialization master lemma: in any mutex-valid schedule whose two
projections are the remaining traces of two protocol-operation stages
consistent with the lock state, the transport calls of the two threads do
not interleave (their owner list is two solid blocks, ordered by who is in
or first enters the critical section). -/
theorem owners_shape (s : List (Bool × Event)) : ∀ (st : Option Bool)
    (sA sB : Stage), validFrom st s = true →
    project true s = sA.trace → project false s = sB.trace →
    StagesOk st sA sB →
    OwnerShape st sA.remaining sB.remaining (owners s) := by
  induction s with
  | nil =>
    intro st sA sB hv hA hB hok
    simp only [project] at hA hB
    cases sA with
    | idle c => simp [Stage.trace] at hA
    | inside c => simp [Stage.trace] at hA
    | finished =>
      cases sB with
      | idle c => simp [Stage.trace] at hB
      | inside c => simp [Stage.trace] at hB
      | finished =>
        cases st with
        | none => exact Or.inl (by simp [Stage.remaining, owners])
        | some t => cases t <;> simp [StagesOk, Stage.holds] at hok
  | cons hd s ih =>
    intro st sA sB hv hA hB hok
    obtain ⟨t, e⟩ := hd
    cases t
    -- thread `false` acts
    case false =>
      rw [project_cons_other (by simp) e s] at hA
      rw [project_cons_same false e s] at hB
      cases e with
      | lock =>
        cases sB with
        | idle c =>
          simp only [Stage.trace] at hB
          have hB' : project false s = (Stage.inside c).trace := by
            simpa [Stage.trace] using hB
          cases st with
          | some h => simp [validFrom] at hv
          | none =>
            have hv' : validFrom (some false) s = true := by
              simpa [validFrom] using hv
            have hok' : StagesOk (some false) sA (Stage.inside c) := by
              simp only [StagesOk] at hok ⊢
              exact ⟨hok.1, rfl⟩
            have res := ih (some false) sA (Stage.inside c) hv' hA hB' hok'
            simp only [OwnerShape, Stage.remaining] at res ⊢
            rw [owners_cons_lock]
            exact Or.inr res
        | inside c =>
          cases c <;> simp [Stage.trace] at hB
        | finished => simp [Stage.trace] at hB
      | unlock =>
        cases sB with
        | idle c => simp [Stage.trace] at hB
        | inside c =>
          cases c with
          | cons c0 c' => simp [Stage.trace] at hB
          | nil =>
            have hB' : project false s = Stage.finished.trace := by
              simpa [Stage.trace] using hB
            cases st with
            | none => simp [validFrom] at hv
            | some h =>
              cases h with
              | true => simp [StagesOk, Stage.holds] at hok
              | false =>
                have hv' : validFrom none s = true := by
                  simpa [validFrom] using hv
                have hok' : StagesOk none sA Stage.finished := by
                  simp only [StagesOk] at hok ⊢
                  exact ⟨hok.1, rfl⟩
                have res := ih none sA Stage.finished hv' hA hB' hok'
                simp only [OwnerShape, Stage.remaining] at res ⊢
                rw [owners_cons_unlock]
                rcases res with h1 | h1 <;> simp at h1 <;> simp [h1]
        | finished => simp [Stage.trace] at hB
      | xfer c0 =>
        cases sB with
        | idle c => simp [Stage.trace] at hB
        | inside c =>
          cases c with
          | nil => simp [Stage.trace] at hB
          | cons c1 c' =>
            simp only [Stage.trace, List.map_cons, List.cons_append,
              List.cons.injEq] at hB
            have hB' : project false s = (Stage.inside c').trace := hB.2
            have hst : st = some false := by
              cases st with
              | none => simp [StagesOk, Stage.holds] at hok
              | some h =>
                cases h with
                | true => simp [StagesOk, Stage.holds] at hok
                | false => rfl
            subst hst
            have hv' : validFrom (some false) s = true := by
              rw [validFrom_cons_xfer] at hv
              exact hv
            have hok' : StagesOk (some false) sA (Stage.inside c') := by
              simp only [StagesOk] at hok ⊢
              exact ⟨hok.1, rfl⟩
            have res := ih (some false) sA (Stage.inside c') hv' hA hB' hok'
            simp only [OwnerShape, Stage.remaining] at res ⊢
            rw [owners_cons_xfer, res]
            simp [List.replicate_succ]
        | finished => simp [Stage.trace] at hB
    -- thread `true` acts
    case true =>
      rw [project_cons_other (by simp) e s] at hB
      rw [project_cons_same true e s] at hA
      cases e with
      | lock =>
        cases sA with
        | idle c =>
          have hA' : project true s = (Stage.inside c).trace := by
            simpa [Stage.trace] using hA
          cases st with
          | some h => simp [validFrom] at hv
          | none =>
            have hv' : validFrom (some true) s = true := by
              simpa [validFrom] using hv
            have hok' : StagesOk (some true) (Stage.inside c) sB := by
              simp only [StagesOk] at hok ⊢
              exact ⟨rfl, hok.2⟩
            have res := ih (some true) (Stage.inside c) sB hv' hA' hB hok'
            simp only [OwnerShape, Stage.remaining] at res ⊢
            rw [owners_cons_lock]
            exact Or.inl res
        | inside c =>
          cases c <;> simp [Stage.trace] at hA
        | finished => simp [Stage.trace] at hA
      | unlock =>
        cases sA with
        | idle c => simp [Stage.trace] at hA
        | inside c =>
          cases c with
          | cons c0 c' => simp [Stage.trace] at hA
          | nil =>
            have hA' : project true s = Stage.finished.trace := by
              simpa [Stage.trace] using hA
            cases st with
            | none => simp [validFrom] at hv
            | some h =>
              cases h with
              | false => simp [StagesOk, Stage.holds] at hok
              | true =>
                have hv' : validFrom none s = true := by
                  simpa [validFrom] using hv
                have hok' : StagesOk none Stage.finished sB := by
                  simp only [StagesOk] at hok ⊢
                  exact ⟨rfl, hok.2⟩
                have res := ih none Stage.finished sB hv' hA' hB hok'
                simp only [OwnerShape, Stage.remaining] at res ⊢
                rw [owners_cons_unlock]
                rcases res with h1 | h1 <;> simp at h1 <;> simp [h1]
        | finished => simp [Stage.trace] at hA
      | xfer c0 =>
        cases sA with
        | idle c => simp [Stage.trace] at hA
        | inside c =>
          cases c with
          | nil => simp [Stage.trace] at hA
          | cons c1 c' =>
            simp only [Stage.trace, List.map_cons, List.cons_append,
              List.cons.injEq] at hA
            have hA' : project true s = (Stage.inside c').trace := hA.2
            have hst : st = some true := by
              cases st with
              | none => simp [StagesOk, Stage.holds] at hok
              | some h =>
                cases h with
                | false => simp [StagesOk, Stage.holds] at hok
                | true => rfl
            subst hst
            have hv' : validFrom (some true) s = true := by
              rw [validFrom_cons_xfer] at hv
              exact hv
            have hok' : StagesOk (some true) (Stage.inside c') sB := by
              simp only [StagesOk] at hok ⊢
              exact ⟨rfl, hok.2⟩
            have res := ih (some true) (Stage.inside c') sB hv' hA' hB hok'
            simp only [OwnerShape, Stage.remaining] at res ⊢
            rw [owners_cons_xfer, res]
            simp [List.replicate_succ]
        | finished => simp [Stage.trace] at hA

/-- Any index of a zero-filled buffer reads zero. -/
theorem getD_replicate_zero (n j : Nat) :
    (List.replicate n (0 : Nat)).getD j 0 = 0 := by
  induction n generalizing j with
  | zero => rfl
  | succ n ih =>
    cases j with
    | zero => rfl
    | succ j => exact ih j

/-- The set frame is 39 bytes long. -/
theorem setReportFrame_length (usage value : Int) (counter : Nat) :
    (setReportFrame usage value counter).length = 39 := by
  rw [setReportFrame_eq]
  simp

/-- The get request frame is 39 bytes long. -/
theorem getReportFrame_length (usage : Int) (counter : Nat) :
    (getReportFrame usage counter).length = 39 := by
  rw [getReportFrame_eq]
  simp

/-- Bytes 11-38 of the set frame are zero. -/
theorem setReportFrame_tail_zero (usage value : Int) (counter : Nat)
    (i : Nat) (h11 : 11 ≤ i) :
    (setReportFrame usage value counter).getD i 0 = 0 := by
  obtain ⟨j, rfl⟩ : ∃ j, i = j + 11 := ⟨i - 11, by omega⟩
  rw [setReportFrame_eq]
  exact getD_replicate_zero 28 j

/-- The event trace of `eizo_set_value` is empty or a full
lock/calls/unlock critical section. -/
theorem set_events_shape (d : Option EizoData) (a : Bool) (tp : Transport)
    (u v : Int) :
    (eizo_set_value d a tp u v).events = [] ∨
    ∃ calls, (eizo_set_value d a tp u v).events = (Stage.idle calls).trace := by
  unfold eizo_set_value
  cases d with
  | none => exact Or.inl rfl
  | some data =>
    cases a with
    | false => exact Or.inl rfl
    | true =>
      by_cases h : tp.send 2 (setReportFrame u v data.counter) < 0
      · simp only [h]
        exact Or.inr ⟨[⟨2, .setReport, setReportFrame u v data.counter⟩], by
          simp [Stage.trace]⟩
      · simp only [h]
        exact Or.inr ⟨[⟨2, .setReport, setReportFrame u v data.counter⟩], by
          simp [Stage.trace]⟩

/-- The event trace of `eizo_get_value` is empty or a full
lock/calls/unlock critical section. -/
theorem get_events_shape (d : Option EizoData) (a : Bool) (tp : Transport)
    (u : Int) :
    (eizo_get_value d a tp u).events = [] ∨
    ∃ calls, (eizo_get_value d a tp u).events = (Stage.idle calls).trace := by
  unfold eizo_get_value
  cases d with
  | none => exact Or.inl rfl
  | some data =>
    cases a with
    | false => exact Or.inl rfl
    | true =>
      by_cases h : tp.send 3 (getReportFrame u data.counter) < 0
      · simp only [h]
        exact Or.inr ⟨[⟨3, .setReport, getReportFrame u data.counter⟩], by
          simp [Stage.trace]⟩
      · simp only [h]
        by_cases h2 : (tp.recv 3 (getReportFrame u data.counter)).1 < 0
        · simp only [h2]
          exact Or.inr ⟨[⟨3, .setReport, getReportFrame u data.counter⟩,
            ⟨3, .getReport, getReportFrame u data.counter⟩], by
            simp [Stage.trace]⟩
        · simp only [h2]
          exact Or.inr ⟨[⟨3, .setReport, getReportFrame u data.counter⟩,
            ⟨3, .getReport, getReportFrame u data.counter⟩], by
            simp [Stage.trace]⟩

/-- Every event trace of a set or get operation has the critical-section
shape. -/
theorem eizo_trace_shape (evs : List Event) (h : IsEizoTrace evs) :
    evs = [] ∨ ∃ calls, evs = (Stage.idle calls).trace := by
  rcases h with ⟨d, a, tp, u, v, rfl⟩ | ⟨d, a, tp, u, rfl⟩
  · exact set_events_shape d a tp u v
  · exact get_events_shape d a tp u

/-- Every transport call recorded by a set or get operation carries a
39-byte buffer. -/
theorem eizo_trace_buffers (evs : List Event) (h : IsEizoTrace evs)
    (c : TransportCall) (hc : Event.xfer c ∈ evs) : c.buffer.length = 39 := by
  rcases h with ⟨d, a, tp, u, v, rfl⟩ | ⟨d, a, tp, u, rfl⟩
  · unfold eizo_set_value at hc
    cases d with
    | none => simp at hc
    | some data =>
      cases a with
      | false => simp at hc
      | true =>
        by_cases hs : tp.send 2 (setReportFrame u v data.counter) < 0 <;>
          simp only [hs, if_pos, if_neg] at hc <;>
          simp at hc <;>
          rw [hc] <;>
          exact setReportFrame_length u v data.counter
  · unfold eizo_get_value at hc
    cases d with
    | none => simp at hc
    | some data =>
      cases a with
      | false => simp at hc
      | true =>
        by_cases hs : tp.send 3 (getReportFrame u data.counter) < 0
        · simp only [hs] at hc
          simp at hc
          rw [hc]
          exact getReportFrame_length u data.counter
        · simp only [hs] at hc
          by_cases h2 : (tp.recv 3 (getReportFrame u data.counter)).1 < 0 <;>
            simp only [h2] at hc <;>
            simp at hc <;>
            rcases hc with hc | hc <;>
            rw [hc] <;>
            exact getReportFrame_length u data.counter

/-- A scheduled event belongs to its thread's projection. -/
theorem mem_project (p : Bool × Event) (s : List (Bool × Event)) (h : p ∈ s) :
    p.2 ∈ project p.1 s := by
  induction s with
  | nil => simp at h
  | cons hd s ih =>
    obtain ⟨u, e⟩ := hd
    rcases List.mem_cons.mp h with h1 | h1
    · rw [h1]
      simp [project]
    · by_cases he : u = p.1
      · subst he
        simp [project, ih h1]
      · rw [project_cons_other he]
        exact ih h1

/-- `eizo_set_value` never writes the driver data. -/
theorem set_drvdata_eq (d : EizoData) (a : Bool) (tp : Transport)
    (u v : Int) : (eizo_set_value (some d) a tp u v).drvdata = some d := by
  cases a with
  | false => rfl
  | true =>
    by_cases h : tp.send 2 (setReportFrame u v d.counter) < 0 <;>
      simp [eizo_set_value, h]

/-- `eizo_get_value` never writes the driver data. -/
theorem get_drvdata_eq (d : EizoData) (a : Bool) (tp : Transport)
    (u : Int) : (eizo_get_value (some d) a tp u).drvdata = some d := by
  cases a with
  | false => rfl
  | true =>
    by_cases h : tp.send 3 (getReportFrame u d.counter) < 0
    · simp [eizo_get_value, h]
    · by_cases h2 : (tp.recv 3 (getReportFrame u d.counter)).1 < 0 <;>
        simp [eizo_get_value, h, h2]

/-- `runOp` never writes the driver data. -/
theorem runOp_drvdata_eq (tp : Transport) (d : EizoData) (op : OpCall) :
    (runOp tp (some d) op).1 = some d := by
  cases op with
  | set u v a => exact set_drvdata_eq d a tp u v
  | get u a => exact get_drvdata_eq d a tp u

/-- `runOps` preserves the driver data through any sequence of operations. -/
theorem runOps_drvdata_eq (tp : Transport) (d : EizoData) (ops : List OpCall) :
    (runOps tp (some d) ops).1 = some d := by
  induction ops with
  | nil => rfl
  | cons op ops ih =>
    simp only [runOps, runOp_drvdata_eq]
    exact ih

/-- Every transport call of a set operation carries the set frame. -/
theorem set_xfer_frame (d : EizoData) (a : Bool) (tp : Transport)
    (u v : Int) (c : TransportCall)
    (hc : Event.xfer c ∈ (eizo_set_value (some d) a tp u v).events) :
    c.buffer = setReportFrame u v d.counter := by
  unfold eizo_set_value at hc
  cases a with
  | false => simp at hc
  | true =>
    by_cases hs : tp.send 2 (setReportFrame u v d.counter) < 0 <;>
      simp only [hs, if_pos, if_neg] at hc <;>
      simp at hc <;>
      rw [hc]

/-- Every transport call of a get operation carries the get request frame. -/
theorem get_xfer_frame (d : EizoData) (a : Bool) (tp : Transport)
    (u : Int) (c : TransportCall)
    (hc : Event.xfer c ∈ (eizo_get_value (some d) a tp u).events) :
    c.buffer = getReportFrame u d.counter := by
  unfold eizo_get_value at hc
  cases a with
  | false => simp at hc
  | true =>
    by_cases hs : tp.send 3 (getReportFrame u d.counter) < 0
    · simp only [hs] at hc
      simp at hc
      rw [hc]
    · simp only [hs] at hc
      by_cases h2 : (tp.recv 3 (getReportFrame u d.counter)).1 < 0 <;>
        simp only [h2] at hc <;>
        simp at hc <;>
        rcases hc with hc | hc <;>
        rw [hc]

/-- Byte 5 of the set frame is the low counter byte. -/
theorem setReportFrame_getD_5 (u v : Int) (cnt : Nat) :
    (setReportFrame u v cnt).getD 5 0 = cntByte cnt 0 := rfl

/-- Byte 6 of the set frame is the high counter byte. -/
theorem setReportFrame_getD_6 (u v : Int) (cnt : Nat) :
    (setReportFrame u v cnt).getD 6 0 = cntByte cnt 1 := rfl

/-- Byte 5 of the get request frame is the low counter byte. -/
theorem getReportFrame_getD_5 (u : Int) (cnt : Nat) :
    (getReportFrame u cnt).getD 5 0 = cntByte cnt 0 := rfl

/-- Byte 6 of the get request frame is the high counter byte. -/
theorem getReportFrame_getD_6 (u : Int) (cnt : Nat) :
    (getReportFrame u cnt).getD 6 0 = cntByte cnt 1 := rfl

/-- Every frame sent on behalf of an initialized device embeds the seeded
counter `1` little-endian in bytes 5-6. -/
theorem runOps_counter_bytes (tp : Transport) (ops : List OpCall)
    (c : TransportCall)
    (hc : Event.xfer c ∈ (runOps tp (some eizo_data_init) ops).2) :
    c.buffer.getD 5 0 = 1 ∧ c.buffer.getD 6 0 = 0 := by
  induction ops with
  | nil => simp [runOps] at hc
  | cons op ops ih =>
    simp only [runOps, runOp_drvdata_eq, List.mem_append] at hc
    rcases hc with hc | hc
    · cases op with
      | set u v a =>
        have hb := set_xfer_frame eizo_data_init a tp u v c hc
        rw [hb, setReportFrame_getD_5, setReportFrame_getD_6]
        exact ⟨rfl, rfl⟩
      | get u a =>
        have hb := get_xfer_frame eizo_data_init a tp u c hc
        rw [hb, getReportFrame_getD_5, getReportFrame_getD_6]
        exact ⟨rfl, rfl⟩
    · exact ih hc

/-- C1: for every usage code among BRIGHTNESS, POWER, GAMMA, PROFILE and
every value in the 32-bit signed range, encoding a frame (usage into bytes
1-4 little-endian, value into bytes 7-10 little-endian, as `eizo_set_value`
does) and then decoding it (little-endian from bytes 7-10 as
`eizo_get_value` does, and correspondingly from bytes 1-4) recovers the
exact usage and value. -/
theorem claim1_frame_roundtrip (usage value : Int) (counter : Nat)
    (hu : usage ∈ eizoUsages)
    (h0 : -(2 ^ 31) ≤ value) (h1 : value < 2 ^ 31) :
    decodeValue (setReportFrame usage value counter) = value ∧
    decodeUsage (setReportFrame usage value counter) = usage := by
  have husage : -(2 ^ 31) ≤ usage ∧ usage < 2 ^ 31 := by
    simp only [eizoUsages, EIZO_USAGE_BRIGHTNESS, EIZO_USAGE_POWER,
      EIZO_USAGE_GAMMA, EIZO_USAGE_PROFILE, List.mem_cons,
      List.mem_singleton, List.not_mem_nil, or_false] at hu
    rcases hu with rfl | rfl | rfl | rfl <;> norm_num
  constructor
  · have e7 : byteAt (setReportFrame usage value counter) 7 =
        encByte value 0 % 256 := rfl
    have e8 : byteAt (setReportFrame usage value counter) 8 =
        encByte value 1 % 256 := rfl
    have e9 : byteAt (setReportFrame usage value counter) 9 =
        encByte value 2 % 256 := rfl
    have e10 : byteAt (setReportFrame usage value counter) 10 =
        encByte value 3 % 256 := rfl
    unfold decodeValue
    rw [e7, e8, e9, e10]
    exact decode_encByte value h0 h1
  · have e1 : byteAt (setReportFrame usage value counter) 1 =
        encByte usage 0 % 256 := rfl
    have e2 : byteAt (setReportFrame usage value counter) 2 =
        encByte usage 1 % 256 := rfl
    have e3 : byteAt (setReportFrame usage value counter) 3 =
        encByte usage 2 % 256 := rfl
    have e4 : byteAt (setReportFrame usage value counter) 4 =
        encByte usage 3 % 256 := rfl
    unfold decodeUsage
    rw [e1, e2, e3, e4]
    exact decode_encByte usage husage.1 husage.2

/-- Witness for C1 at BRIGHTNESS and value 150. -/
theorem claim1_frame_roundtrip_witness :
    EIZO_USAGE_BRIGHTNESS ∈ eizoUsages ∧
    -(2 ^ 31) ≤ (150 : Int) ∧ (150 : Int) < 2 ^ 31 ∧
    decodeValue (setReportFrame EIZO_USAGE_BRIGHTNESS 150 1) = 150 ∧
    decodeUsage (setReportFrame EIZO_USAGE_BRIGHTNESS 150 1) =
      EIZO_USAGE_BRIGHTNESS :=
  ⟨by decide, by norm_num, by norm_num,
    (claim1_frame_roundtrip EIZO_USAGE_BRIGHTNESS 150 1 (by decide)
      (by norm_num) (by norm_num)).1,
    (claim1_frame_roundtrip EIZO_USAGE_BRIGHTNESS 150 1 (by decide)
      (by norm_num) (by norm_num)).2⟩

/-- C2: a successful set builds a zero-initialized 39-byte frame with byte
0 zero, usage in bytes 1-4 little-endian, the session counter in bytes 5-6
little-endian, value in bytes 7-10 little-endian, bytes 11-38 zero, and
performs exactly one transport send on report identifier 2; in particular
set(BRIGHTNESS, 150) puts 0x0001 at bytes 5-6 and little-endian 150 at
bytes 7-10. -/
theorem claim2_set_builds_frame (data : EizoData) (tp : Transport)
    (usage value : Int)
    (hs : 0 ≤ tp.send 2 (setReportFrame usage value data.counter)) :
    (eizo_set_value (some data) true tp usage value).ret = 0 ∧
    (eizo_set_value (some data) true tp usage value).events =
      [Event.lock,
       Event.xfer ⟨2, ReqType.setReport, setReportFrame usage value data.counter⟩,
       Event.unlock] ∧
    (setReportFrame usage value data.counter).length = 39 ∧
    (setReportFrame usage value data.counter).getD 0 0 = 0 ∧
    (∀ k, k < 4 → (setReportFrame usage value data.counter).getD (1 + k) 0 =
      (usage % (2 ^ 32 : Int)).toNat / 256 ^ k % 256) ∧
    (setReportFrame usage value data.counter).getD 5 0 = data.counter % 256 ∧
    (setReportFrame usage value data.counter).getD 6 0 =
      data.counter / 256 % 256 ∧
    (∀ k, k < 4 → (setReportFrame usage value data.counter).getD (7 + k) 0 =
      (value % (2 ^ 32 : Int)).toNat / 256 ^ k % 256) ∧
    (∀ i, 11 ≤ i → (setReportFrame usage value data.counter).getD i 0 = 0) ∧
    (setReportFrame EIZO_USAGE_BRIGHTNESS 150 eizo_data_init.counter).getD 5 0
      = 1 ∧
    (setReportFrame EIZO_USAGE_BRIGHTNESS 150 eizo_data_init.counter).getD 6 0
      = 0 ∧
    (setReportFrame EIZO_USAGE_BRIGHTNESS 150 eizo_data_init.counter).getD 7 0
      = 150 ∧
    (setReportFrame EIZO_USAGE_BRIGHTNESS 150 eizo_data_init.counter).getD 8 0
      = 0 ∧
    (setReportFrame EIZO_USAGE_BRIGHTNESS 150 eizo_data_init.counter).getD 9 0
      = 0 ∧
    (setReportFrame EIZO_USAGE_BRIGHTNESS 150 eizo_data_init.counter).getD 10 0
      = 0 := by
  have hneg : ¬ tp.send 2 (setReportFrame usage value data.counter) < 0 := by
    omega
  refine ⟨?_, ?_, setReportFrame_length usage value data.counter, rfl,
    ?_, ?_, ?_, ?_, ?_, by decide, by decide, by decide, by decide, by decide,
    by decide⟩
  · simp [eizo_set_value, hneg]
  · simp [eizo_set_value, hneg]
  · intro k hk
    interval_cases k
    · rw [show (setReportFrame usage value data.counter).getD (1 + 0) 0 =
        encByte usage 0 from rfl, encByte_div]
      norm_num
    · rw [show (setReportFrame usage value data.counter).getD (1 + 1) 0 =
        encByte usage 1 from rfl, encByte_div]
      norm_num
    · rw [show (setReportFrame usage value data.counter).getD (1 + 2) 0 =
        encByte usage 2 from rfl, encByte_div]
      norm_num
    · rw [show (setReportFrame usage value data.counter).getD (1 + 3) 0 =
        encByte usage 3 from rfl, encByte_div]
      norm_num
  · rw [setReportFrame_getD_5]
    simp [cntByte]
  · rw [setReportFrame_getD_6]
    simp [cntByte, Nat.shiftRight_eq_div_pow]
  · intro k hk
    interval_cases k
    · rw [show (setReportFrame usage value data.counter).getD (7 + 0) 0 =
        encByte value 0 from rfl, encByte_div]
      norm_num
    · rw [show (setReportFrame usage value data.counter).getD (7 + 1) 0 =
        encByte value 1 from rfl, encByte_div]
      norm_num
    · rw [show (setReportFrame usage value data.counter).getD (7 + 2) 0 =
        encByte value 2 from rfl, encByte_div]
      norm_num
    · rw [show (setReportFrame usage value data.counter).getD (7 + 3) 0 =
        encByte value 3 from rfl, encByte_div]
      norm_num
  · intro i h11
    exact setReportFrame_tail_zero usage value data.counter i h11

/-- Witness for C2: a successful set against the echo transport. -/
theorem claim2_set_builds_frame_witness :
    0 ≤ echoTransport.send 2
      (setReportFrame EIZO_USAGE_BRIGHTNESS 150 eizo_data_init.counter) ∧
    (eizo_set_value (some eizo_data_init) true echoTransport
      EIZO_USAGE_BRIGHTNESS 150).ret = 0 ∧
    (eizo_set_value (some eizo_data_init) true echoTransport
      EIZO_USAGE_BRIGHTNESS 150).events =
      [Event.lock,
       Event.xfer ⟨2, ReqType.setReport,
         setReportFrame EIZO_USAGE_BRIGHTNESS 150 eizo_data_init.counter⟩,
       Event.unlock] :=
  ⟨by decide,
    (claim2_set_builds_frame eizo_data_init echoTransport
      EIZO_USAGE_BRIGHTNESS 150 (by decide)).1,
    (claim2_set_builds_frame eizo_data_init echoTransport
      EIZO_USAGE_BRIGHTNESS 150 (by decide)).2.1⟩

/-- C3: a get performs exactly two transport exchanges, both on report
identifier 3, in order: first a write carrying the usage with zero value
bytes, then a read into the same buffer; if the write exchange fails, the
read is never attempted and the operation returns a Communication error. -/
theorem claim3_get_write_then_read (data : EizoData) (tp : Transport)
    (usage : Int) :
    (tp.send 3 (getReportFrame usage data.counter) < 0 →
      (eizo_get_value (some data) true tp usage).ret = -ECOMM ∧
      (eizo_get_value (some data) true tp usage).events =
        [Event.lock,
         Event.xfer ⟨3, ReqType.setReport, getReportFrame usage data.counter⟩,
         Event.unlock]) ∧
    (0 ≤ tp.send 3 (getReportFrame usage data.counter) →
      (eizo_get_value (some data) true tp usage).events =
        [Event.lock,
         Event.xfer ⟨3, ReqType.setReport, getReportFrame usage data.counter⟩,
         Event.xfer ⟨3, ReqType.getReport, getReportFrame usage data.counter⟩,
         Event.unlock]) ∧
    (getReportFrame usage data.counter).getD 7 0 = 0 ∧
    (getReportFrame usage data.counter).getD 8 0 = 0 ∧
    (getReportFrame usage data.counter).getD 9 0 = 0 ∧
    (getReportFrame usage data.counter).getD 10 0 = 0 ∧
    (∀ k, k < 4 → (getReportFrame usage data.counter).getD (1 + k) 0 =
      (usage % (2 ^ 32 : Int)).toNat / 256 ^ k % 256) := by
  refine ⟨?_, ?_, rfl, rfl, rfl, rfl, ?_⟩
  · intro hfail
    constructor <;> simp [eizo_get_value, hfail]
  · intro hok
    have hneg : ¬ tp.send 3 (getReportFrame usage data.counter) < 0 := by
      omega
    by_cases h2 : (tp.recv 3 (getReportFrame usage data.counter)).1 < 0 <;>
      simp [eizo_get_value, hneg, h2]
  · intro k hk
    interval_cases k
    · rw [show (getReportFrame usage data.counter).getD (1 + 0) 0 =
        encByte usage 0 from rfl, encByte_div]
      norm_num
    · rw [show (getReportFrame usage data.counter).getD (1 + 1) 0 =
        encByte usage 1 from rfl, encByte_div]
      norm_num
    · rw [show (getReportFrame usage data.counter).getD (1 + 2) 0 =
        encByte usage 2 from rfl, encByte_div]
      norm_num
    · rw [show (getReportFrame usage data.counter).getD (1 + 3) 0 =
        encByte usage 3 from rfl, encByte_div]
      norm_num

/-- Witness for C3: a failing write aborts before the read; a successful
write is followed by exactly one read. -/
theorem claim3_get_write_then_read_witness :
    failSendTransport.send 3
      (getReportFrame EIZO_USAGE_BRIGHTNESS eizo_data_init.counter) < 0 ∧
    (eizo_get_value (some eizo_data_init) true failSendTransport
      EIZO_USAGE_BRIGHTNESS).ret = -ECOMM ∧
    (eizo_get_value (some eizo_data_init) true failSendTransport
      EIZO_USAGE_BRIGHTNESS).events =
      [Event.lock,
       Event.xfer ⟨3, ReqType.setReport,
         getReportFrame EIZO_USAGE_BRIGHTNESS eizo_data_init.counter⟩,
       Event.unlock] ∧
    (eizo_get_value (some eizo_data_init) true echoTransport
      EIZO_USAGE_BRIGHTNESS).events =
      [Event.lock,
       Event.xfer ⟨3, ReqType.setReport,
         getReportFrame EIZO_USAGE_BRIGHTNESS eizo_data_init.counter⟩,
       Event.xfer ⟨3, ReqType.getReport,
         getReportFrame EIZO_USAGE_BRIGHTNESS eizo_data_init.counter⟩,
       Event.unlock] :=
  ⟨by decide,
    ((claim3_get_write_then_read eizo_data_init failSendTransport
      EIZO_USAGE_BRIGHTNESS).1 (by decide)).1,
    ((claim3_get_write_then_read eizo_data_init failSendTransport
      EIZO_USAGE_BRIGHTNESS).1 (by decide)).2,
    (claim3_get_write_then_read eizo_data_init echoTransport
      EIZO_USAGE_BRIGHTNESS).2.1 (by decide)⟩

/-- C4: the session counter is seeded to 1 at attach (`eizo_data_init`),
no sequence of set/get operations ever modifies the driver data, and every
frame of every transport exchange embeds the unchanged counter value 1 in
bytes 5-6 little-endian. -/
theorem claim4_counter_constant (tp : Transport) (ops : List OpCall) :
    eizo_data_init.counter = 1 ∧
    (runOps tp (some eizo_data_init) ops).1 = some eizo_data_init ∧
    ∀ c : TransportCall,
      Event.xfer c ∈ (runOps tp (some eizo_data_init) ops).2 →
      c.buffer.getD 5 0 = 1 ∧ c.buffer.getD 6 0 = 0 :=
  ⟨rfl, runOps_drvdata_eq tp eizo_data_init ops,
    fun c hc => runOps_counter_bytes tp ops c hc⟩

/-- Witness for C4: a set followed by a get, with the set's frame observed
to carry counter bytes 0x01 0x00. -/
theorem claim4_counter_constant_witness :
    (runOps echoTransport (some eizo_data_init)
      [OpCall.set EIZO_USAGE_BRIGHTNESS 150 true,
       OpCall.get EIZO_USAGE_POWER true]).1 = some eizo_data_init ∧
    Event.xfer ⟨2, ReqType.setReport, setReportFrame EIZO_USAGE_BRIGHTNESS 150 1⟩
      ∈ (runOps echoTransport (some eizo_data_init)
          [OpCall.set EIZO_USAGE_BRIGHTNESS 150 true,
           OpCall.get EIZO_USAGE_POWER true]).2 ∧
    (setReportFrame EIZO_USAGE_BRIGHTNESS 150 1).getD 5 0 = 1 ∧
    (setReportFrame EIZO_USAGE_BRIGHTNESS 150 1).getD 6 0 = 0 :=
  ⟨(claim4_counter_constant echoTransport
      [OpCall.set EIZO_USAGE_BRIGHTNESS 150 true,
       OpCall.get EIZO_USAGE_POWER true]).2.1,
   by decide,
   ((claim4_counter_constant echoTransport
      [OpCall.set EIZO_USAGE_BRIGHTNESS 150 true,
       OpCall.get EIZO_USAGE_POWER true]).2.2
      ⟨2, ReqType.setReport, setReportFrame EIZO_USAGE_BRIGHTNESS 150 1⟩
      (by decide)).1,
   ((claim4_counter_constant echoTransport
      [OpCall.set EIZO_USAGE_BRIGHTNESS 150 true,
       OpCall.get EIZO_USAGE_POWER true]).2.2
      ⟨2, ReqType.setReport, setReportFrame EIZO_USAGE_BRIGHTNESS 150 1⟩
      (by decide)).2⟩

/-- C5: for every setting name outside {brightness, power, gamma, profile},
the attribute-layer read and write paths return an invalid-argument error
with zero transport exchanges: `to_usage` returns -1 and both paths return
before calling the protocol engine. -/
theorem claim5_unknown_name (name : String)
    (hname : name ∉ (["brightness", "power", "gamma", "profile"] : List String))
    (drv : Option EizoData) (allocOk : Bool) (tp : Transport)
    (parsed : Option Int) (count : Nat) :
    to_usage name = -1 ∧
    (eizo_attr_store drv allocOk tp name parsed count).ret = -EINVAL ∧
    (eizo_attr_store drv allocOk tp name parsed count).events = [] ∧
    (eizo_attr_show drv allocOk tp name).ret = -EINVAL ∧
    (eizo_attr_show drv allocOk tp name).buf = none ∧
    (eizo_attr_show drv allocOk tp name).events = [] := by
  simp only [List.mem_cons, List.mem_singleton, List.not_mem_nil, or_false,
    not_or] at hname
  obtain ⟨hb, hp, hg, hpr⟩ := hname
  have ht : to_usage name = -1 := by
    simp [to_usage, hb, hp, hg, hpr]
  refine ⟨ht, ?_, ?_, ?_, ?_, ?_⟩
  · cases parsed with
    | none => rfl
    | some v => simp [eizo_attr_store, ht, EINVAL]
  · cases parsed with
    | none => rfl
    | some v => simp [eizo_attr_store, ht, EINVAL]
  · simp [eizo_attr_show, ht, EINVAL]
  · simp [eizo_attr_show, ht, EINVAL]
  · simp [eizo_attr_show, ht, EINVAL]

/-- Witness for C5 at the unknown name "contrast". -/
theorem claim5_unknown_name_witness :
    "contrast" ∉ (["brightness", "power", "gamma", "profile"] : List String) ∧
    to_usage "contrast" = -1 ∧
    (eizo_attr_store (some eizo_data_init) true echoTransport "contrast"
      (some 42) 2).ret = -EINVAL ∧
    (eizo_attr_store (some eizo_data_init) true echoTransport "contrast"
      (some 42) 2).events = [] ∧
    (eizo_attr_show (some eizo_data_init) true echoTransport "contrast").ret
      = -EINVAL ∧
    (eizo_attr_show (some eizo_data_init) true echoTransport
      "contrast").events = [] :=
  ⟨by decide,
   (claim5_unknown_name "contrast" (by decide) (some eizo_data_init) true
     echoTransport (some 42) 2).1,
   (claim5_unknown_name "contrast" (by decide) (some eizo_data_init) true
     echoTransport (some 42) 2).2.1,
   (claim5_unknown_name "contrast" (by decide) (some eizo_data_init) true
     echoTransport (some 42) 2).2.2.1,
   (claim5_unknown_name "contrast" (by decide) (some eizo_data_init) true
     echoTransport (some 42) 2).2.2.2.1,
   (claim5_unknown_name "contrast" (by decide) (some eizo_data_init) true
     echoTransport (some 42) 2).2.2.2.2.2⟩

/-- C6: a failed transport exchange (the single send of a set, or either
exchange of a get) makes the operation return the Communication error
-ECOMM, and on every exit path the event trace is either empty (the lock
was never taken) or a complete lock/calls/unlock critical section, so the
lock is always released before returning. -/
theorem claim6_comm_error_and_lock_release (data : EizoData)
    (drv : Option EizoData) (allocOk : Bool) (tp : Transport)
    (usage value : Int) :
    (tp.send 2 (setReportFrame usage value data.counter) < 0 →
      (eizo_set_value (some data) true tp usage value).ret = -ECOMM) ∧
    (tp.send 3 (getReportFrame usage data.counter) < 0 →
      (eizo_get_value (some data) true tp usage).ret = -ECOMM) ∧
    (0 ≤ tp.send 3 (getReportFrame usage data.counter) →
      (tp.recv 3 (getReportFrame usage data.counter)).1 < 0 →
      (eizo_get_value (some data) true tp usage).ret = -ECOMM) ∧
    ((eizo_set_value drv allocOk tp usage value).events = [] ∨
      ∃ calls, (eizo_set_value drv allocOk tp usage value).events =
        (Stage.idle calls).trace) ∧
    ((eizo_get_value drv allocOk tp usage).events = [] ∨
      ∃ calls, (eizo_get_value drv allocOk tp usage).events =
        (Stage.idle calls).trace) := by
  refine ⟨?_, ?_, ?_, set_events_shape drv allocOk tp usage value,
    get_events_shape drv allocOk tp usage⟩
  · intro hfail
    simp [eizo_set_value, hfail]
  · intro hfail
    simp [eizo_get_value, hfail]
  · intro hok h2
    have hneg : ¬ tp.send 3 (getReportFrame usage data.counter) < 0 := by
      omega
    simp [eizo_get_value, hneg, h2]

/-- Witness for C6: failing send and failing receive both surface -ECOMM. -/
theorem claim6_comm_error_and_lock_release_witness :
    failSendTransport.send 2
      (setReportFrame EIZO_USAGE_BRIGHTNESS 150 eizo_data_init.counter) < 0 ∧
    (eizo_set_value (some eizo_data_init) true failSendTransport
      EIZO_USAGE_BRIGHTNESS 150).ret = -ECOMM ∧
    0 ≤ failRecvTransport.send 3
      (getReportFrame EIZO_USAGE_BRIGHTNESS eizo_data_init.counter) ∧
    (failRecvTransport.recv 3
      (getReportFrame EIZO_USAGE_BRIGHTNESS eizo_data_init.counter)).1 < 0 ∧
    (eizo_get_value (some eizo_data_init) true failRecvTransport
      EIZO_USAGE_BRIGHTNESS).ret = -ECOMM :=
  ⟨by decide,
   (claim6_comm_error_and_lock_release eizo_data_init (some eizo_data_init)
     true failSendTransport EIZO_USAGE_BRIGHTNESS 150).1 (by decide),
   by decide, by decide,
   (claim6_comm_error_and_lock_release eizo_data_init (some eizo_data_init)
     true failRecvTransport EIZO_USAGE_BRIGHTNESS 150).2.2.1 (by decide)
     (by decide)⟩

/-- C7: in any mutex-valid interleaving of two set/get operations on the
same device, the transport calls of the two threads never interleave, and
every observed transport call carries a fully-formed 39-byte frame. -/
theorem claim7_serialized (s : List (Bool × Event)) (tA tB : List Event)
    (hA : IsEizoTrace tA) (hB : IsEizoTrace tB)
    (hv : validFrom none s = true)
    (hpA : project true s = tA) (hpB : project false s = tB) :
    (∃ a b, owners s = List.replicate a true ++ List.replicate b false ∨
      owners s = List.replicate b false ++ List.replicate a true) ∧
    (∀ p ∈ s, ∀ c : TransportCall, p.2 = Event.xfer c →
      c.buffer.length = 39) := by
  subst hpA
  subst hpB
  constructor
  · rcases eizo_trace_shape _ hA with h1 | ⟨ca, h1⟩ <;>
      rcases eizo_trace_shape _ hB with h2 | ⟨cb, h2⟩
    · have res := owners_shape s none .finished .finished hv
        (by rw [h1]; rfl) (by rw [h2]; rfl) ⟨rfl, rfl⟩
      simp only [OwnerShape, Stage.remaining] at res
      exact ⟨0, 0, res⟩
    · have res := owners_shape s none .finished (.idle cb) hv
        (by rw [h1]; rfl) h2 ⟨rfl, rfl⟩
      simp only [OwnerShape, Stage.remaining] at res
      exact ⟨0, cb.length, res⟩
    · have res := owners_shape s none (.idle ca) .finished hv h1
        (by rw [h2]; rfl) ⟨rfl, rfl⟩
      simp only [OwnerShape, Stage.remaining] at res
      exact ⟨ca.length, 0, res⟩
    · have res := owners_shape s none (.idle ca) (.idle cb) hv h1 h2
        ⟨rfl, rfl⟩
      simp only [OwnerShape, Stage.remaining] at res
      exact ⟨ca.length, cb.length, res⟩
  · intro p hp c hpc
    have hmem := mem_project p s hp
    rcases Bool.eq_false_or_eq_true p.1 with hb | hb
    · rw [hb] at hmem
      rw [hpc] at hmem
      exact eizo_trace_buffers _ hA c hmem
    · rw [hb] at hmem
      rw [hpc] at hmem
      exact eizo_trace_buffers _ hB c hmem

/-- Witness for C7: the sequential schedule of a set by one thread and a
get by the other is mutex-valid and its transport calls form two solid
blocks. -/
theorem claim7_serialized_witness :
    validFrom none schedW = true ∧
    (∃ a b, owners schedW = List.replicate a true ++ List.replicate b false ∨
      owners schedW = List.replicate b false ++ List.replicate a true) ∧
    (∀ p ∈ schedW, ∀ c : TransportCall, p.2 = Event.xfer c →
      c.buffer.length = 39) := by
  have h := claim7_serialized schedW
    (eizo_set_value (some eizo_data_init) true echoTransport
      EIZO_USAGE_BRIGHTNESS 150).events
    (eizo_get_value (some eizo_data_init) true echoTransport
      EIZO_USAGE_POWER).events
    (Or.inl ⟨some eizo_data_init, true, echoTransport,
      EIZO_USAGE_BRIGHTNESS, 150, rfl⟩)
    (Or.inr ⟨some eizo_data_init, true, echoTransport,
      EIZO_USAGE_POWER, rfl⟩)
    (by decide) (by decide) (by decide)
  exact ⟨by decide, h.1, h.2⟩

/-- C8: when the per-device data lookup returns nothing, both set and get
return -ENODATA immediately, with no lock activity and no transport
exchange, independently of allocation success and of the transport. -/
theorem claim8_no_session (allocOk : Bool) (tp : Transport)
    (usage value : Int) :
    eizo_set_value none allocOk tp usage value = ⟨-ENODATA, none, []⟩ ∧
    eizo_get_value none allocOk tp usage = ⟨-ENODATA, none, none, []⟩ :=
  ⟨rfl, rfl⟩

/-- C9: an unparseable write payload is rejected with -EINVAL before the
protocol engine runs; a parsed write whose set succeeds returns the input
byte count; a successful read renders the decoded value as a decimal
string with a trailing newline and returns its length. -/
theorem claim9_attr_layer_contract (drv : Option EizoData) (allocOk : Bool)
    (tp : Transport) (name : String) (value : Int) (count : Nat) (v : Int) :
    (eizo_attr_store drv allocOk tp name none count).ret = -EINVAL ∧
    (eizo_attr_store drv allocOk tp name none count).events = [] ∧
    (0 ≤ to_usage name →
      (eizo_set_value drv allocOk tp (to_usage name) value).ret = 0 →
      (eizo_attr_store drv allocOk tp name (some value) count).ret =
        (count : Int)) ∧
    (0 ≤ to_usage name →
      (eizo_get_value drv allocOk tp (to_usage name)).ret = 0 →
      (eizo_get_value drv allocOk tp (to_usage name)).value = some v →
      (eizo_attr_show drv allocOk tp name).buf = some (toString v ++ "\n") ∧
      (eizo_attr_show drv allocOk tp name).ret =
        ((toString v ++ "\n").length : Int)) := by
  refine ⟨rfl, rfl, ?_, ?_⟩
  · intro hu hset
    have hnu : ¬ to_usage name < 0 := by omega
    simp [eizo_attr_store, hnu, hset]
  · intro hu hget hval
    have hnu : ¬ to_usage name < 0 := by omega
    have hnr : ¬ (eizo_get_value drv allocOk tp (to_usage name)).ret < 0 := by
      omega
    constructor <;> simp [eizo_attr_show, hnu, hnr, hval]

/-- Witness for C9: against an echoing transport, a stored value returns
the byte count and a read renders "0\n". -/
theorem claim9_attr_layer_contract_witness :
    0 ≤ to_usage "brightness" ∧
    (eizo_set_value (some eizo_data_init) true echoTransport
      (to_usage "brightness") 150).ret = 0 ∧
    (eizo_attr_store (some eizo_data_init) true echoTransport "brightness"
      (some 150) 3).ret = 3 ∧
    (eizo_get_value (some eizo_data_init) true echoTransport
      (to_usage "brightness")).ret = 0 ∧
    (eizo_get_value (some eizo_data_init) true echoTransport
      (to_usage "brightness")).value = some 0 ∧
    (eizo_attr_show (some eizo_data_init) true echoTransport
      "brightness").buf = some "0\n" := by
  refine ⟨by decide, by decide, ?_, by decide, by decide, ?_⟩
  · exact (claim9_attr_layer_contract (some eizo_data_init) true
      echoTransport "brightness" 150 3 0).2.2.1 (by decide) (by decide)
  · have h := ((claim9_attr_layer_contract (some eizo_data_init) true
      echoTransport "brightness" 150 3 0).2.2.2 (by decide) (by decide)
      (by decide)).1
    rw [h]
    decide

/-- C10: the attribute layer collapses all protocol-engine error
distinctions: any failed set surfaces as -EPERM from the write path, any
failed get surfaces as -ENODATA from the read path with no output written,
and the get out-parameter is written exactly on success. -/
theorem claim10_error_collapse (drv : Option EizoData) (allocOk : Bool)
    (tp : Transport) (name : String) (value : Int) (count : Nat)
    (usage : Int) :
    (0 ≤ to_usage name →
      (eizo_set_value drv allocOk tp (to_usage name) value).ret < 0 →
      (eizo_attr_store drv allocOk tp name (some value) count).ret =
        -EPERM) ∧
    (0 ≤ to_usage name →
      (eizo_get_value drv allocOk tp (to_usage name)).ret < 0 →
      (eizo_attr_show drv allocOk tp name).ret = -ENODATA ∧
      (eizo_attr_show drv allocOk tp name).buf = none) ∧
    ((eizo_get_value drv allocOk tp usage).ret < 0 →
      (eizo_get_value drv allocOk tp usage).value = none) ∧
    ((eizo_get_value drv allocOk tp usage).ret = 0 →
      ∃ w, (eizo_get_value drv allocOk tp usage).value = some w) := by
  refine ⟨?_, ?_, ?_, ?_⟩
  · intro hu hfail
    have hnu : ¬ to_usage name < 0 := by omega
    simp [eizo_attr_store, hnu, hfail]
  · intro hu hfail
    have hnu : ¬ to_usage name < 0 := by omega
    constructor <;> simp [eizo_attr_show, hnu, hfail]
  · intro hfail
    cases drv with
    | none => rfl
    | some data =>
      cases allocOk with
      | false => rfl
      | true =>
        by_cases h1 : tp.send 3 (getReportFrame usage data.counter) < 0
        · simp [eizo_get_value, h1]
        · by_cases h2 : (tp.recv 3 (getReportFrame usage data.counter)).1 < 0
          · simp [eizo_get_value, h1, h2]
          · simp [eizo_get_value, h1, h2] at hfail
  · intro hzero
    cases drv with
    | none => simp [eizo_get_value, ENODATA] at hzero
    | some data =>
      cases allocOk with
      | false => simp [eizo_get_value, ENOMEM] at hzero
      | true =>
        by_cases h1 : tp.send 3 (getReportFrame usage data.counter) < 0
        · simp [eizo_get_value, h1, ECOMM] at hzero
        · by_cases h2 : (tp.recv 3 (getReportFrame usage data.counter)).1 < 0
          · simp [eizo_get_value, h1, h2, ECOMM] at hzero
          · exact ⟨decodeValue (tp.recv 3
              (getReportFrame usage data.counter)).2,
              by simp [eizo_get_value, h1, h2]⟩

/-- Witness for C10: a failing transport makes store return -EPERM and
show return -ENODATA with no output; a succeeding get writes its output. -/
theorem claim10_error_collapse_witness :
    0 ≤ to_usage "brightness" ∧
    (eizo_set_value (some eizo_data_init) true failSendTransport
      (to_usage "brightness") 150).ret < 0 ∧
    (eizo_attr_store (some eizo_data_init) true failSendTransport
      "brightness" (some 150) 3).ret = -EPERM ∧
    (eizo_get_value (some eizo_data_init) true failSendTransport
      (to_usage "brightness")).ret < 0 ∧
    (eizo_attr_show (some eizo_data_init) true failSendTransport
      "brightness").ret = -ENODATA ∧
    (eizo_get_value (some eizo_data_init) true failSendTransport
      (to_usage "brightness")).value = none ∧
    (∃ w, (eizo_get_value (some eizo_data_init) true echoTransport
      (to_usage "brightness")).value = some w) := by
  refine ⟨by decide, by decide, ?_, by decide, ?_, ?_, ?_⟩
  · exact (claim10_error_collapse (some eizo_data_init) true
      failSendTransport "brightness" 150 3 (to_usage "brightness")).1
      (by decide) (by decide)
  · exact ((claim10_error_collapse (some eizo_data_init) true
      failSendTransport "brightness" 150 3 (to_usage "brightness")).2.1
      (by decide) (by decide)).1
  · exact (claim10_error_collapse (some eizo_data_init) true
      failSendTransport "brightness" 150 3 (to_usage "brightness")).2.2.1
      (by decide)
  · exact (claim10_error_collapse (some eizo_data_init) true
      echoTransport "brightness" 150 3 (to_usage "brightness")).2.2.2
      (by decide)

end OpenEizo
